import Mathlib

/-! # Chain parameters of the KTS network: accessors and activation predicates

A shallow embedding of `src/chainparams.h`.

* `int` and `int64_t` values are mathematical integers (`Int`); the only place
  of the header where a value leaves the range of its type is the narrowing
  `int64_t → int` of `KtsBadBlockTime`, which is modelled by `toInt32`.
* `uint256` and `unsigned int` values are natural numbers.
* A C++ `bool` that is returned through an `int` is converted by `boolToInt`.
* The member function `HasStakeMinAgeOrDepth` is only declared in the header;
  its body is modelled from the specification and is marked as such.
-/

namespace Klimatas

/-! ## Machine integers -/

/-- Largest value of a 32-bit signed `int`. -/
def INT_MAX : Int := 2147483647

/-- Smallest value of a 32-bit signed `int`. -/
def INT_MIN : Int := -2147483648

/-- Conversion of a C++ `bool` to `int`: `true` becomes 1 and `false` becomes 0. -/
def boolToInt (b : Bool) : Int :=
  if b then 1 else 0

/-- Narrowing conversion of an integer to a 32-bit signed `int`, as done by the
implicit conversion of an `int64_t` that is returned through an `int`: the
value is reduced modulo 2^32 and the result is read as a two's complement
number. -/
def toInt32 (x : Int) : Int :=
  let r := x % 4294967296
  if r ≥ 2147483648 then r - 4294967296 else r

/-! ## Data model -/

/-- DNS seed entry: `struct CDNSSeedData`. -/
structure CDNSSeedData where
  name : String
  host : String
  deriving DecidableEq, Repr

/-- The protected data members of `class CChainParams`, in declaration order.
`int`, `int64_t` and `CAmount` members are integers, `uint256` and
`unsigned int` members are natural numbers, byte vectors are lists. The members
`networkID`, `genesis` and `vFixedSeeds` have types declared in other headers
and are read by no accessor modelled here; they are left out. The last two
members carry the initial value 0 of the header. -/
structure CChainParams where
  hashGenesisBlock : Nat
  pchMessageStart : List Nat
  vAlertPubKey : List Nat
  nDefaultPort : Int
  bnProofOfWorkLimit : Nat
  bnProofOfStakeLimit : Nat
  bnProofOfStakeLimit_V2 : Nat
  nMaxReorganizationDepth : Int
  nSubsidyHalvingInterval : Int
  nEnforceBlockUpgradeMajority : Int
  nRejectBlockOutdatedMajority : Int
  nToCheckBlockUpgradeMajority : Int
  nTargetSpacing : Int
  nTargetTimespan : Int
  nTargetTimespan_V2 : Int
  nLastPOWBlock : Int
  nKtsBadBlockTime : Int
  nKtsBadBlocknBits : Nat
  nMasternodeCountDrift : Int
  nMaturity : Int
  nStakeMinDepth : Int
  nStakeMinAge : Int
  nFutureTimeDriftPoW : Int
  nFutureTimeDriftPoS : Int
  nTimeSlotLength : Int
  nModifierUpdateBlock : Int
  nMaxMoneyOut : Int
  nMinerThreads : Int
  vSeeds : List CDNSSeedData
  base58Prefixes : List (List Nat)
  strNetworkID : String
  fMiningRequiresPeers : Bool
  fAllowMinDifficultyBlocks : Bool
  fDefaultConsistencyChecks : Bool
  fRequireStandard : Bool
  fMineBlocksOnDemand : Bool
  fSkipProofOfWorkCheck : Bool
  fTestnetToBeDeprecatedFieldRPC : Bool
  fHeadersFirstSyncingActive : Bool
  nPoolMaxTransactions : Int
  nBudgetCycleBlocks : Int
  strSporkPubKey : String
  strSporkPubKeyOld : String
  nEnforceNewSporkKey : Int
  nRejectOldSporkKey : Int
  strObfuscationPoolDummyAddress : String
  nStartMasternodePayments : Int
  zerocoinModulus : String
  nMaxZerocoinSpendsPerTransaction : Int
  nMaxZerocoinPublicSpendsPerTransaction : Int
  nMinZerocoinMintFee : Int
  nInvalidAmountFiltered : Int
  nMintRequiredConfirmations : Int
  nRequiredAccumulation : Int
  nDefaultSecurityLevel : Int
  nZerocoinHeaderVersion : Int
  nBudget_Fee_Confirmations : Int
  nZerocoinStartHeight : Int
  nZerocoinStartTime : Int
  nZerocoinRequiredStakeDepth : Int
  nProposalEstablishmentTime : Int
  nBIP65ActivationHeight : Int
  nBlockEnforceSerialRange : Int
  nBlockRecalculateAccumulators : Int
  nBlockFirstFraudulent : Int
  nBlockLastGoodCheckpoint : Int
  nBlockEnforceInvalidUTXO : Int
  nBlockZerocoinV2 : Int
  nBlockDoubleAccumulated : Int
  nPublicZCSpends : Int
  nBlockStakeModifierlV2 : Int
  nBlockTimeProtocolV2 : Int
  nBlockEnforceNewMessageSignatures : Int
  nBlockV7StartHeight : Int
  nBlockLastAccumulatorCheckpoint : Int
  nMinColdStakingAmount : Int
  nFakeSerialBlockheightEnd : Int := 0
  nSupplyBeforeFakeSerial : Int := 0

namespace CChainParams

/-! ## Accessors defined in the header -/

/-- `const uint256& ProofOfStakeLimit(const bool fV2) const`. -/
def ProofOfStakeLimit (p : CChainParams) (fV2 : Bool) : Nat :=
  if fV2 then p.bnProofOfStakeLimit_V2 else p.bnProofOfStakeLimit

/-- `int64_t TargetTimespan(const bool fV2 = true) const`; the default value of
the argument is `true`. -/
def TargetTimespan (p : CChainParams) (fV2 : optParam Bool true) : Int :=
  if fV2 then p.nTargetTimespan_V2 else p.nTargetTimespan

/-- `int COINSTAKE_MIN_AGE() const`. -/
def COINSTAKE_MIN_AGE (p : CChainParams) : Int := p.nStakeMinAge

/-- `int COINSTAKE_MIN_DEPTH() const`. -/
def COINSTAKE_MIN_DEPTH (p : CChainParams) : Int := p.nStakeMinDepth

/-- `int BlockStartTimeProtocolV2() const`. -/
def BlockStartTimeProtocolV2 (p : CChainParams) : Int := p.nBlockTimeProtocolV2

/-- `bool IsTimeProtocolV2(const int nHeight) const`. -/
def IsTimeProtocolV2 (p : CChainParams) (nHeight : Int) : Bool :=
  decide (nHeight ≥ p.BlockStartTimeProtocolV2)

/-- `int KtsBadBlockTime() const`: the `int64_t` member is returned through an
`int`, so it is narrowed to 32 bits. -/
def KtsBadBlockTime (p : CChainParams) : Int := toInt32 p.nKtsBadBlockTime

/-- `bool IsStakeModifierV2(const int nHeight) const`. -/
def IsStakeModifierV2 (p : CChainParams) (nHeight : Int) : Bool :=
  decide (nHeight ≥ p.nBlockStakeModifierlV2)

/-- `int NewSigsActive(const int nHeight) const`: the comparison is a `bool`
that is returned through an `int`. -/
def NewSigsActive (p : CChainParams) (nHeight : Int) : Int :=
  boolToInt (decide (nHeight ≥ p.nBlockEnforceNewMessageSignatures))

/-! ## Member function declared in the header and defined elsewhere -/

/-- Modelled from the spec: the body of
`bool HasStakeMinAgeOrDepth(const int contextHeight, const uint32_t contextTime,
const int utxoFromBlockHeight, const uint32_t utxoFromBlockTime) const`, which
the header only declares. The specification says: "Age check: claim satisfies
the rule if EITHER the time-based minimum OR the depth-based minimum holds
(disjunction, not conjunction)." The time-based minimum holds when the time
elapsed between the block of the output and the context is at least
`COINSTAKE_MIN_AGE()`, the depth-based minimum when the number of blocks
between them is at least `COINSTAKE_MIN_DEPTH()`. Times are unsigned, heights
are signed; both differences are taken over the integers. -/
def HasStakeMinAgeOrDepth (p : CChainParams) (contextHeight : Int) (contextTime : Nat)
    (utxoFromBlockHeight : Int) (utxoFromBlockTime : Nat) : Bool :=
  decide ((contextTime : Int) - (utxoFromBlockTime : Int) ≥ p.COINSTAKE_MIN_AGE) ||
    decide (contextHeight - utxoFromBlockHeight ≥ p.COINSTAKE_MIN_DEPTH)

end CChainParams

/-! ## Parameter objects used as concrete inputs -/

/-- A parameter object with small round values in every member. -/
def sampleParams : CChainParams where
  hashGenesisBlock := 11
  pchMessageStart := [1, 2, 3, 4]
  vAlertPubKey := [4, 5]
  nDefaultPort := 51472
  bnProofOfWorkLimit := 1000
  bnProofOfStakeLimit := 2000
  bnProofOfStakeLimit_V2 := 3000
  nMaxReorganizationDepth := 100
  nSubsidyHalvingInterval := 210000
  nEnforceBlockUpgradeMajority := 8100
  nRejectBlockOutdatedMajority := 10260
  nToCheckBlockUpgradeMajority := 10800
  nTargetSpacing := 60
  nTargetTimespan := 2400
  nTargetTimespan_V2 := 1800
  nLastPOWBlock := 200
  nKtsBadBlockTime := 1471401614
  nKtsBadBlocknBits := 476024496
  nMasternodeCountDrift := 20
  nMaturity := 100
  nStakeMinDepth := 600
  nStakeMinAge := 3600
  nFutureTimeDriftPoW := 7200
  nFutureTimeDriftPoS := 180
  nTimeSlotLength := 15
  nModifierUpdateBlock := 1
  nMaxMoneyOut := 21000000
  nMinerThreads := 0
  vSeeds := [⟨"seed", "seed.example.org"⟩]
  base58Prefixes := [[30], [13], [212]]
  strNetworkID := "main"
  fMiningRequiresPeers := true
  fAllowMinDifficultyBlocks := false
  fDefaultConsistencyChecks := false
  fRequireStandard := true
  fMineBlocksOnDemand := false
  fSkipProofOfWorkCheck := false
  fTestnetToBeDeprecatedFieldRPC := false
  fHeadersFirstSyncingActive := false
  nPoolMaxTransactions := 3
  nBudgetCycleBlocks := 43200
  strSporkPubKey := "04aa"
  strSporkPubKeyOld := "04bb"
  nEnforceNewSporkKey := 1566860400
  nRejectOldSporkKey := 1569538800
  strObfuscationPoolDummyAddress := "K"
  nStartMasternodePayments := 1403728576
  zerocoinModulus := "2519"
  nMaxZerocoinSpendsPerTransaction := 7
  nMaxZerocoinPublicSpendsPerTransaction := 637
  nMinZerocoinMintFee := 1000000
  nInvalidAmountFiltered := 0
  nMintRequiredConfirmations := 20
  nRequiredAccumulation := 1
  nDefaultSecurityLevel := 100
  nZerocoinHeaderVersion := 4
  nBudget_Fee_Confirmations := 6
  nZerocoinStartHeight := 201
  nZerocoinStartTime := 1508214600
  nZerocoinRequiredStakeDepth := 200
  nProposalEstablishmentTime := 86400
  nBIP65ActivationHeight := 5000
  nBlockEnforceSerialRange := 300
  nBlockRecalculateAccumulators := 310
  nBlockFirstFraudulent := 320
  nBlockLastGoodCheckpoint := 330
  nBlockEnforceInvalidUTXO := 340
  nBlockZerocoinV2 := 350
  nBlockDoubleAccumulated := 360
  nPublicZCSpends := 370
  nBlockStakeModifierlV2 := 1000
  nBlockTimeProtocolV2 := 2000
  nBlockEnforceNewMessageSignatures := 3000
  nBlockV7StartHeight := 4000
  nBlockLastAccumulatorCheckpoint := 380
  nMinColdStakingAmount := 100000000
  nFakeSerialBlockheightEnd := 0
  nSupplyBeforeFakeSerial := 0

/-- A second parameter object: it has the three activation heights of
`sampleParams` and differs from it in other members. -/
def otherParams : CChainParams :=
  { sampleParams with
    nDefaultPort := 51474
    strNetworkID := "test"
    nLastPOWBlock := 250
    nStakeMinAge := 60
    nTimeSlotLength := 20
    nKtsBadBlockTime := 5000000000
    fAllowMinDifficultyBlocks := true
    nBlockV7StartHeight := 4500 }

/-- A parameter object of a test network: every activation height is zero. -/
def zeroParams : CChainParams :=
  { sampleParams with
    nBlockStakeModifierlV2 := 0
    nBlockTimeProtocolV2 := 0
    nBlockEnforceNewMessageSignatures := 0 }

/-- A parameter object whose activation heights are all the largest `int`:
the variants are never activated. -/
def neverParams : CChainParams :=
  { sampleParams with
    nBlockStakeModifierlV2 := INT_MAX
    nBlockTimeProtocolV2 := INT_MAX
    nBlockEnforceNewMessageSignatures := INT_MAX }

/-! ## Auxiliary facts -/

theorem boolToInt_eq_zero_or_one (b : Bool) : boolToInt b = 0 ∨ boolToInt b = 1 := by
  cases b <;> simp [boolToInt]

theorem boolToInt_ne_zero_iff (b : Bool) : boolToInt b ≠ 0 ↔ b = true := by
  cases b <;> simp [boolToInt]

theorem toInt32_eq_self_iff (x : Int) :
    toInt32 x = x ↔ (-2147483648 ≤ x ∧ x ≤ 2147483647) := by
  simp only [toInt32]
  constructor
  · intro h
    split at h <;> omega
  · intro h
    split <;> omega

theorem toInt32_range (x : Int) : -2147483648 ≤ toInt32 x ∧ toInt32 x ≤ 2147483647 := by
  simp only [toInt32]
  split <;> omega

theorem toInt32_congruent (x : Int) : (toInt32 x - x) % 4294967296 = 0 := by
  simp only [toInt32]
  split <;> omega

namespace CChainParams

/-! ## Activation predicates -/

/-- C1: for every parameter object and every height, `IsTimeProtocolV2` is true
exactly when the height is at least `BlockStartTimeProtocolV2()`; it is true at
that height and false at the height just below it. -/
theorem IsTimeProtocolV2_iff_ge (p : CChainParams) (h : Int) :
    (p.IsTimeProtocolV2 h = true ↔ h ≥ p.BlockStartTimeProtocolV2) ∧
    p.IsTimeProtocolV2 p.BlockStartTimeProtocolV2 = true ∧
    p.IsTimeProtocolV2 (p.BlockStartTimeProtocolV2 - 1) = false := by
  refine ⟨?_, ?_, ?_⟩
  · simp [IsTimeProtocolV2]
  · simp [IsTimeProtocolV2]
  · simp [IsTimeProtocolV2]

/-- C2: `IsStakeModifierV2` is false at every height strictly below
`nBlockStakeModifierlV2` and true at every height at or above it. -/
theorem IsStakeModifierV2_switch (p : CChainParams) (h : Int) :
    (h < p.nBlockStakeModifierlV2 → p.IsStakeModifierV2 h = false) ∧
    (h ≥ p.nBlockStakeModifierlV2 → p.IsStakeModifierV2 h = true) := by
  constructor
  · intro hlt
    simp [IsStakeModifierV2, hlt]
  · intro hge
    simp only [IsStakeModifierV2, decide_eq_true_eq]
    exact hge

/-- Instance of C2 at the heights 999, 1000 and 1001 of a parameter object whose
stake modifier V2 starts at height 1000. -/
theorem IsStakeModifierV2_switch_witness :
    sampleParams.nBlockStakeModifierlV2 = 1000 ∧
    sampleParams.IsStakeModifierV2 999 = false ∧
    sampleParams.IsStakeModifierV2 1000 = true ∧
    sampleParams.IsStakeModifierV2 1001 = true :=
  ⟨rfl, (IsStakeModifierV2_switch sampleParams 999).1 (by decide),
    (IsStakeModifierV2_switch sampleParams 1000).2 (by decide),
    (IsStakeModifierV2_switch sampleParams 1001).2 (by decide)⟩

/-- C3: activation is monotone in the height: whenever `h ≤ h'`, each of
`IsTimeProtocolV2`, `IsStakeModifierV2` and `NewSigsActive` (non-zero) that
holds at `h` holds at `h'`. -/
theorem activation_monotone (p : CChainParams) (h h' : Int) (hle : h ≤ h') :
    (p.IsTimeProtocolV2 h = true → p.IsTimeProtocolV2 h' = true) ∧
    (p.IsStakeModifierV2 h = true → p.IsStakeModifierV2 h' = true) ∧
    (p.NewSigsActive h ≠ 0 → p.NewSigsActive h' ≠ 0) := by
  refine ⟨?_, ?_, ?_⟩
  · simp only [IsTimeProtocolV2, decide_eq_true_eq]
    intro hact
    exact le_trans hact hle
  · simp only [IsStakeModifierV2, decide_eq_true_eq]
    intro hact
    exact le_trans hact hle
  · simp only [NewSigsActive, boolToInt_ne_zero_iff, decide_eq_true_eq]
    intro hact
    exact le_trans hact hle

/-- Instance of C3: the three variants are active at height 3000 and stay
active at height 3500. -/
theorem activation_monotone_witness :
    ((3000 : Int) ≤ 3500) ∧
    (sampleParams.IsTimeProtocolV2 3000 = true ∧ sampleParams.IsTimeProtocolV2 3500 = true) ∧
    (sampleParams.IsStakeModifierV2 3000 = true ∧
      sampleParams.IsStakeModifierV2 3500 = true) ∧
    (sampleParams.NewSigsActive 3000 ≠ 0 ∧ sampleParams.NewSigsActive 3500 ≠ 0) :=
  have m := activation_monotone sampleParams 3000 3500 (by decide)
  ⟨by decide, ⟨by decide, m.1 (by decide)⟩, ⟨by decide, m.2.1 (by decide)⟩,
    ⟨by decide, m.2.2 (by decide)⟩⟩

/-- C4: the activation predicates read one member each: two parameter objects
that agree on the threshold a predicate reads give the same result at every
height, whatever their other members hold. -/
theorem activation_reads_only_threshold (p q : CChainParams) (h : Int) :
    (p.nBlockTimeProtocolV2 = q.nBlockTimeProtocolV2 →
      p.IsTimeProtocolV2 h = q.IsTimeProtocolV2 h) ∧
    (p.nBlockStakeModifierlV2 = q.nBlockStakeModifierlV2 →
      p.IsStakeModifierV2 h = q.IsStakeModifierV2 h) ∧
    (p.nBlockEnforceNewMessageSignatures = q.nBlockEnforceNewMessageSignatures →
      p.NewSigsActive h = q.NewSigsActive h) := by
  refine ⟨?_, ?_, ?_⟩
  · intro e
    simp only [IsTimeProtocolV2, BlockStartTimeProtocolV2, e]
  · intro e
    simp only [IsStakeModifierV2, e]
  · intro e
    simp only [NewSigsActive, e]

/-- Instance of C4: two parameter objects that differ in port, network name and
other members but share the three thresholds answer alike at height 2500. -/
theorem activation_reads_only_threshold_witness :
    sampleParams.nDefaultPort ≠ otherParams.nDefaultPort ∧
    sampleParams.strNetworkID ≠ otherParams.strNetworkID ∧
    sampleParams.nBlockTimeProtocolV2 = otherParams.nBlockTimeProtocolV2 ∧
    sampleParams.IsTimeProtocolV2 2500 = otherParams.IsTimeProtocolV2 2500 ∧
    sampleParams.IsStakeModifierV2 2500 = otherParams.IsStakeModifierV2 2500 ∧
    sampleParams.NewSigsActive 2500 = otherParams.NewSigsActive 2500 :=
  have a := activation_reads_only_threshold sampleParams otherParams 2500
  ⟨by decide, by decide, rfl, a.1 rfl, a.2.1 rfl, a.2.2 rfl⟩

/-- C5: extreme thresholds go through the same comparison as every other
threshold. For each of `IsTimeProtocolV2`, `IsStakeModifierV2` and
`NewSigsActive` the predicate is active exactly when the threshold is at most
the height; so with threshold 0 it is active exactly at the heights `h ≥ 0`
(at every chain height), and with the largest `int` as threshold it is active
exactly at the heights `h ≥ INT_MAX` (inactive at every height below it). -/
theorem activation_extreme_thresholds (p : CChainParams) (h : Int) :
    ((p.IsTimeProtocolV2 h = true ↔ p.nBlockTimeProtocolV2 ≤ h) ∧
     (p.IsStakeModifierV2 h = true ↔ p.nBlockStakeModifierlV2 ≤ h) ∧
     (p.NewSigsActive h = if p.nBlockEnforceNewMessageSignatures ≤ h then 1 else 0)) ∧
    ((p.nBlockTimeProtocolV2 = 0 → (p.IsTimeProtocolV2 h = true ↔ 0 ≤ h)) ∧
     (p.nBlockStakeModifierlV2 = 0 → (p.IsStakeModifierV2 h = true ↔ 0 ≤ h)) ∧
     (p.nBlockEnforceNewMessageSignatures = 0 →
       p.NewSigsActive h = if 0 ≤ h then 1 else 0)) ∧
    ((p.nBlockTimeProtocolV2 = INT_MAX → (p.IsTimeProtocolV2 h = true ↔ INT_MAX ≤ h)) ∧
     (p.nBlockStakeModifierlV2 = INT_MAX →
       (p.IsStakeModifierV2 h = true ↔ INT_MAX ≤ h)) ∧
     (p.nBlockEnforceNewMessageSignatures = INT_MAX →
       p.NewSigsActive h = if INT_MAX ≤ h then 1 else 0)) := by
  have ht : p.IsTimeProtocolV2 h = true ↔ p.nBlockTimeProtocolV2 ≤ h := by
    simp only [IsTimeProtocolV2, BlockStartTimeProtocolV2, decide_eq_true_eq, ge_iff_le]
  have hs : p.IsStakeModifierV2 h = true ↔ p.nBlockStakeModifierlV2 ≤ h := by
    simp only [IsStakeModifierV2, decide_eq_true_eq, ge_iff_le]
  have hn : p.NewSigsActive h =
      if p.nBlockEnforceNewMessageSignatures ≤ h then 1 else 0 := by
    by_cases hge : p.nBlockEnforceNewMessageSignatures ≤ h
    · simp [NewSigsActive, boolToInt, hge]
    · simp [NewSigsActive, boolToInt, hge]
  refine ⟨⟨ht, hs, hn⟩, ⟨?_, ?_, ?_⟩, ⟨?_, ?_, ?_⟩⟩
  · intro e
    rw [e] at ht
    exact ht
  · intro e
    rw [e] at hs
    exact hs
  · intro e
    rw [e] at hn
    exact hn
  · intro e
    rw [e] at ht
    exact ht
  · intro e
    rw [e] at hs
    exact hs
  · intro e
    rw [e] at hn
    exact hn

/-- Instance of C5, on both sides of each extreme threshold: with thresholds 0
the variants are active at the genesis height 0 and inactive at height -1;
with thresholds `INT_MAX` they are inactive at height `INT_MAX - 1` and active
at height `INT_MAX`. -/
theorem activation_extreme_thresholds_witness :
    ((zeroParams.IsTimeProtocolV2 0 = true ∧ zeroParams.IsTimeProtocolV2 (-1) = false) ∧
     (zeroParams.IsStakeModifierV2 0 = true ∧ zeroParams.IsStakeModifierV2 (-1) = false) ∧
     (zeroParams.NewSigsActive 0 = 1 ∧ zeroParams.NewSigsActive (-1) = 0)) ∧
    ((neverParams.IsTimeProtocolV2 2147483646 = false ∧
       neverParams.IsTimeProtocolV2 2147483647 = true) ∧
     (neverParams.IsStakeModifierV2 2147483646 = false ∧
       neverParams.IsStakeModifierV2 2147483647 = true) ∧
     (neverParams.NewSigsActive 2147483646 = 0 ∧
       neverParams.NewSigsActive 2147483647 = 1)) :=
  have z0 := (activation_extreme_thresholds zeroParams 0).2.1
  have z1 := (activation_extreme_thresholds zeroParams (-1)).2.1
  have n0 := (activation_extreme_thresholds neverParams 2147483646).2.2
  have n1 := (activation_extreme_thresholds neverParams 2147483647).2.2
  ⟨⟨⟨(z0.1 rfl).2 (by decide), Bool.eq_false_iff.2 (mt (z1.1 rfl).1 (by decide))⟩,
     ⟨(z0.2.1 rfl).2 (by decide), Bool.eq_false_iff.2 (mt (z1.2.1 rfl).1 (by decide))⟩,
     ⟨(z0.2.2 rfl).trans (by decide), (z1.2.2 rfl).trans (by decide)⟩⟩,
    ⟨⟨Bool.eq_false_iff.2 (mt (n0.1 rfl).1 (by decide)), (n1.1 rfl).2 (by decide)⟩,
     ⟨Bool.eq_false_iff.2 (mt (n0.2.1 rfl).1 (by decide)), (n1.2.1 rfl).2 (by decide)⟩,
     ⟨(n0.2.2 rfl).trans (by decide), (n1.2.2 rfl).trans (by decide)⟩⟩⟩

/-- C8: `NewSigsActive` returns exactly 1 when the height is at least
`nBlockEnforceNewMessageSignatures` and exactly 0 otherwise; it returns no
other value. -/
theorem NewSigsActive_is_flag (p : CChainParams) (h : Int) :
    p.NewSigsActive h = (if h ≥ p.nBlockEnforceNewMessageSignatures then 1 else 0) ∧
    (p.NewSigsActive h = 0 ∨ p.NewSigsActive h = 1) := by
  constructor
  · unfold NewSigsActive
    by_cases hge : h ≥ p.nBlockEnforceNewMessageSignatures
    · simp [boolToInt, hge]
    · simp [boolToInt, hge]
  · exact boolToInt_eq_zero_or_one _

/-! ## Stake age -/

/-- C6: `HasStakeMinAgeOrDepth` returns true whenever the time-based minimum
holds (the time elapsed is at least `COINSTAKE_MIN_AGE()`) or the depth-based
minimum holds (the number of blocks is at least `COINSTAKE_MIN_DEPTH()`); one
of the two is enough. -/
theorem HasStakeMinAgeOrDepth_of_age_or_depth (p : CChainParams)
    (contextHeight : Int) (contextTime : Nat) (utxoFromBlockHeight : Int)
    (utxoFromBlockTime : Nat)
    (hmin : (contextTime : Int) - (utxoFromBlockTime : Int) ≥ p.COINSTAKE_MIN_AGE ∨
      contextHeight - utxoFromBlockHeight ≥ p.COINSTAKE_MIN_DEPTH) :
    p.HasStakeMinAgeOrDepth contextHeight contextTime utxoFromBlockHeight
      utxoFromBlockTime = true := by
  simp only [HasStakeMinAgeOrDepth, Bool.or_eq_true, decide_eq_true_eq]
  exact hmin

/-- Instances of C6 with a minimum age of 3600 and a minimum depth of 600: an
output that is 3600 seconds old but one block deep is accepted, and so is an
output that is 600 blocks deep but one second old. -/
theorem HasStakeMinAgeOrDepth_of_age_or_depth_witness :
    (¬ ((1000 : Int) - 999 ≥ sampleParams.COINSTAKE_MIN_DEPTH) ∧
      sampleParams.HasStakeMinAgeOrDepth 1000 10000 999 6400 = true) ∧
    (¬ (((10000 : Nat) : Int) - ((9999 : Nat) : Int) ≥ sampleParams.COINSTAKE_MIN_AGE) ∧
      sampleParams.HasStakeMinAgeOrDepth 1600 10000 1000 9999 = true) :=
  ⟨⟨by decide,
      HasStakeMinAgeOrDepth_of_age_or_depth sampleParams 1000 10000 999 6400
        (Or.inl (by decide))⟩,
    ⟨by decide,
      HasStakeMinAgeOrDepth_of_age_or_depth sampleParams 1600 10000 1000 9999
        (Or.inr (by decide))⟩⟩

/-! ## Narrowing and selectors -/

/-- C9: `KtsBadBlockTime()` is the stored `nKtsBadBlockTime` narrowed to 32
bits: it lies in the range of `int`, it is congruent to the stored value modulo
2^32, and it equals the stored value exactly when the stored value lies between
-2^31 and 2^31 - 1 (so it differs for every stored value outside that range). -/
theorem KtsBadBlockTime_narrowed (p : CChainParams) :
    (INT_MIN ≤ p.KtsBadBlockTime ∧ p.KtsBadBlockTime ≤ INT_MAX) ∧
    (p.KtsBadBlockTime - p.nKtsBadBlockTime) % 4294967296 = 0 ∧
    (p.KtsBadBlockTime = p.nKtsBadBlockTime ↔
      (INT_MIN ≤ p.nKtsBadBlockTime ∧ p.nKtsBadBlockTime ≤ INT_MAX)) :=
  ⟨toInt32_range p.nKtsBadBlockTime, toInt32_congruent p.nKtsBadBlockTime,
    toInt32_eq_self_iff p.nKtsBadBlockTime⟩

/-- Instance of C9: a stored time of 1471401614 is returned unchanged, a stored
time of 5000000000 is returned as 705032704. -/
theorem KtsBadBlockTime_narrowed_witness :
    sampleParams.KtsBadBlockTime = sampleParams.nKtsBadBlockTime ∧
    otherParams.nKtsBadBlockTime = 5000000000 ∧
    otherParams.KtsBadBlockTime = 705032704 ∧
    otherParams.KtsBadBlockTime ≠ otherParams.nKtsBadBlockTime :=
  ⟨(KtsBadBlockTime_narrowed sampleParams).2.2.2 (by decide), rfl, by decide,
    fun e => absurd ((KtsBadBlockTime_narrowed otherParams).2.2.1 e) (by decide)⟩

/-- C10: `ProofOfStakeLimit(true)` is `bnProofOfStakeLimit_V2` and
`ProofOfStakeLimit(false)` is `bnProofOfStakeLimit`; `TargetTimespan(true)` is
`nTargetTimespan_V2`, `TargetTimespan(false)` is `nTargetTimespan`, and
`TargetTimespan()` without argument is `TargetTimespan(true)`. -/
theorem version_selectors (p : CChainParams) :
    p.ProofOfStakeLimit true = p.bnProofOfStakeLimit_V2 ∧
    p.ProofOfStakeLimit false = p.bnProofOfStakeLimit ∧
    p.TargetTimespan true = p.nTargetTimespan_V2 ∧
    p.TargetTimespan false = p.nTargetTimespan ∧
    p.TargetTimespan = p.TargetTimespan true := by
  refine ⟨?_, ?_, ?_, ?_, ?_⟩
  · simp [ProofOfStakeLimit]
  · simp [ProofOfStakeLimit]
  · simp [TargetTimespan]
  · simp [TargetTimespan]
  · rfl

end CChainParams

end Klimatas
